import Mathlib

/-!
Shallow embedding of the irbc-app backend: the Express routes of src/server.js
over the Mongoose model of src/models/Incident.js. The Incident Store is a list
of records; MongoDB object ids are opaque naturals; Date values are numeric
timestamps. Server-generated quantities (the multer unique filename suffix, the
store-assigned id, Date.now at save time) enter the handlers as parameters.
-/

/-- An incident record as stored by the Mongoose model (src/models/Incident.js).
The status carrier is String because Mongoose stores plain strings and the enum
constraint is only a save-time validator; landmark is the only optional field. -/
structure Incident where
  id : Nat
  title : String
  details : String
  address : String
  landmark : Option String
  imageUrl : String
  status : String
  adminNotes : String
  createdAt : Nat
  deriving DecidableEq

/-- The four values of the enum on incidentSchema.status (src/models/Incident.js
lines 26-30). -/
def allowedStatuses : List String := ["Pending", "In Progress", "Resolved", "Rejected"]

/-- A multipart file part as multer presents it: field name, client-supplied
original name and media type, and size in bytes. -/
structure UploadedFile where
  fieldname : String
  originalname : String
  mimetype : String
  size : Nat
  deriving DecidableEq

/-- The body of a POST /api/incidents request. Besides the four form fields the
route reads, a client may also send status, adminNotes, createdAt or imageUrl
values; they are carried here so theorems can show the handler ignores them. -/
structure CreateRequest where
  file : Option UploadedFile
  title : Option String
  details : Option String
  address : Option String
  landmark : Option String
  bodyStatus : Option String
  bodyAdminNotes : Option String
  bodyCreatedAt : Option Nat
  bodyImageUrl : Option String
  deriving DecidableEq

/-- Suffix of a character list starting at its last dot, if any. -/
def extSuffix : List Char → Option (List Char)
  | [] => none
  | c :: cs =>
    match extSuffix cs with
    | some t => some t
    | none => if c = '.' then some (c :: cs) else none

/-- Node's path.extname on a plain file name: the substring from the last dot to
the end, empty when there is no dot or the only dot leads the name. -/
def extname (s : String) : String :=
  match s.toList with
  | [] => ""
  | _ :: cs =>
    match extSuffix cs with
    | some t => String.mk t
    | none => ""

/-- The multer diskStorage filename callback (src/server.js lines 41-46): the
field name, a dash, a unique time-and-random suffix (a parameter of the model),
and the original file extension. -/
def serverFilename (f : UploadedFile) (uniqueSuffix : String) : String :=
  f.fieldname ++ "-" ++ uniqueSuffix ++ extname f.originalname

/-- The multer size limit: 1024 * 1024 * 5 bytes (src/server.js line 61). -/
def maxFileSize : Nat := 1024 * 1024 * 5

/-- Message of the fileFilter rejection (src/server.js line 55). -/
def unsupportedMediaMessage : String := "Only JPEG and PNG image files are allowed!"

/-- Message of the 400 answered when no file part is attached (line 85). -/
def missingFileMessage : String := "Error: Image upload is required."

/-- Message of the catch block of the create route (line 112). -/
def saveErrorMessage : String := "Server error occurred while submitting."

/-- Message of the 201 success answer (line 104). -/
def successMessage : String := "Incident submitted successfully to Municipal Authority!"

/-- The multer stage of POST /api/incidents (src/server.js lines 36-63): with no
file part the request passes through with no file recorded; otherwise the
fileFilter admits only the image/jpeg and image/png media types and the size
limit admits at most maxFileSize bytes, after which the file is written under a
server-generated name. An error here aborts the request before the route runs. -/
def uploadPipeline (file : Option UploadedFile) (uniqueSuffix : String) :
    Except String (Option String) :=
  match file with
  | none => Except.ok none
  | some f =>
    if f.mimetype = "image/jpeg" ∨ f.mimetype = "image/png" then
      if f.size ≤ maxFileSize then Except.ok (some (serverFilename f uniqueSuffix))
      else Except.error "File too large"
    else Except.error unsupportedMediaMessage

/-- Whitespace as removed by the JavaScript String trim used by the Mongoose
trim setter, restricted to the common ASCII whitespace characters. -/
def isSpaceChar (c : Char) : Bool := c = ' ' ∨ c = '\t' ∨ c = '\n' ∨ c = '\r'

/-- Removal of leading and trailing whitespace, the effect of the trim setter
on the title path. -/
def trimChars (s : String) : String :=
  String.mk (((s.toList.dropWhile isSpaceChar).reverse.dropWhile isSpaceChar).reverse)

/-- The document built by new Incident (src/server.js lines 89-96) with the
schema defaults and setters applied (src/models/Incident.js): the trim setter on
title, status defaulting to Pending, adminNotes to the empty string, createdAt
to the current time. Only title, details, address and landmark are read from the
request body; an absent required text field behaves like an empty one for the
required validator, so both are carried as the empty string. -/
def mkIncident (req : CreateRequest) (filename : String) (newId : Nat) (now : Nat) : Incident :=
  { id := newId
    title := trimChars (req.title.getD "")
    details := req.details.getD ""
    address := req.address.getD ""
    landmark := req.landmark
    imageUrl := "/uploads/" ++ filename
    status := "Pending"
    adminNotes := ""
    createdAt := now }

/-- Mongoose save-time validation (src/models/Incident.js): every required
string path must be present and non-empty, and status must satisfy the enum.
The details and address paths carry no trim option, so a whitespace-only string
passes their required check; title is validated after its trim setter ran. -/
def validateIncident (i : Incident) : Prop :=
  i.title ≠ "" ∧ i.details ≠ "" ∧ i.address ≠ "" ∧ i.imageUrl ≠ "" ∧
  i.status ∈ allowedStatuses

instance (i : Incident) : Decidable (validateIncident i) := by
  unfold validateIncident; infer_instance

/-- Response of the create route: HTTP status, message, and the new id when one
was created. -/
structure CreateResponse where
  status : Nat
  message : String
  incidentId : Option Nat
  deriving DecidableEq

/-- POST /api/incidents (src/server.js lines 79-116). The multer middleware runs
first; its errors never reach the route handler and fall to the Express default
error handler, an HTTP 500 (the app installs no error middleware). The handler
then answers 400 when no file part was attached, builds the document and saves
it; a failed save is caught and mapped to 500, and a successful save answers 201
with the store-assigned id. -/
def createHandler (req : CreateRequest) (uniqueSuffix : String) (newId : Nat) (now : Nat)
    (store : List Incident) : CreateResponse × List Incident :=
  match uploadPipeline req.file uniqueSuffix with
  | Except.error msg => ({ status := 500, message := msg, incidentId := none }, store)
  | Except.ok none => ({ status := 400, message := missingFileMessage, incidentId := none }, store)
  | Except.ok (some filename) =>
    let doc := mkIncident req filename newId now
    if validateIncident doc then
      ({ status := 201, message := successMessage, incidentId := some newId }, store ++ [doc])
    else
      ({ status := 500, message := saveErrorMessage, incidentId := none }, store)

/-- Comparator of the createdAt descending sort of the list route. -/
def byNewest (a b : Incident) : Bool := Nat.ble b.createdAt a.createdAt

/-- The query of GET /api/incidents (src/server.js line 126): every stored
incident, sorted by createdAt descending, newest first. -/
def listAll (store : List Incident) : List Incident := store.mergeSort byNewest

/-- Response of the list route: HTTP status and the serialized records. -/
structure ListResponse where
  status : Nat
  incidents : List Incident
  deriving DecidableEq

/-- GET /api/incidents (src/server.js lines 124-131). The route installs no
middleware and reads nothing from the request; its headers are carried here only
so theorems can show they cannot influence the outcome. -/
def getIncidentsHandler (headers : List (String × String)) (store : List Incident) :
    ListResponse :=
  { status := 200, incidents := listAll store }

/-- The lookup half of Incident.findByIdAndUpdate: the first (in MongoDB, only)
record carrying the id, if any. -/
def findById (id : Nat) : List Incident → Option Incident
  | [] => none
  | r :: rs => if r.id = id then some r else findById id rs

/-- The write half of Incident.findByIdAndUpdate (src/server.js lines 141-145):
replace the status field of the record carrying the id, leaving its other fields
and every other record as they are. The call passes no runValidators option, so
the enum of the schema is not checked and the new value is stored verbatim. -/
def setStatusFirst (id : Nat) (s : String) : List Incident → List Incident
  | [] => []
  | r :: rs => if r.id = id then { r with status := s } :: rs else r :: setStatusFirst id s rs

/-- Response of the status-update route: HTTP status, the error message if any,
and the updated document on success. -/
structure UpdateResponse where
  status : Nat
  message : Option String
  incident : Option Incident
  deriving DecidableEq

/-- PATCH /api/incidents/:id/status (src/server.js lines 137-155): update the
status of the addressed record with no validation, answer 404 when the id
resolves to no record, otherwise 200 with the updated document. Headers are
carried only so theorems can show the route reads none of them. -/
def updateStatusHandler (headers : List (String × String)) (id : Nat) (newStatus : String)
    (store : List Incident) : UpdateResponse × List Incident :=
  match findById id store with
  | none => ({ status := 404, message := some "Incident not found", incident := none }, store)
  | some r =>
    ({ status := 200, message := none, incident := some { r with status := newStatus } },
     setStatusFirst id newStatus store)

/-- A 200 KiB JPEG under the form field of the upload middleware. -/
def sampleFile : UploadedFile :=
  { fieldname := "incidentImage", originalname := "pothole.jpg",
    mimetype := "image/jpeg", size := 204800 }

/-- A well-formed create request carrying sampleFile. -/
def sampleRequest : CreateRequest :=
  { file := some sampleFile, title := some "Pothole", details := some "Large pothole",
    address := some "Main St", landmark := none, bodyStatus := none,
    bodyAdminNotes := none, bodyCreatedAt := none, bodyImageUrl := none }

/-- A stored incident with id 0, used as a one-record store. -/
def sampleIncident : Incident :=
  { id := 0, title := "Pothole", details := "Large pothole", address := "Main St",
    landmark := none, imageUrl := "/uploads/incidentImage-1-pothole.jpg",
    status := "Pending", adminNotes := "", createdAt := 100 }

/-! Helper lemmas shared by the claim theorems. -/

theorem byNewest_trans (a b c : Incident) (hab : byNewest a b = true)
    (hbc : byNewest b c = true) : byNewest a c = true := by
  simp only [byNewest, Nat.ble_eq] at *
  omega

theorem byNewest_total (a b : Incident) : (byNewest a b || byNewest b a) = true := by
  simp only [byNewest, Nat.ble_eq, Bool.or_eq_true]
  omega

theorem listAll_perm (store : List Incident) : (listAll store).Perm store :=
  List.mergeSort_perm store byNewest

theorem listAll_pairwise (store : List Incident) :
    (listAll store).Pairwise (fun a b => b.createdAt ≤ a.createdAt) := by
  have hs := List.sorted_mergeSort byNewest_trans byNewest_total store
  refine hs.imp ?_
  intro a b h
  simpa [byNewest, Nat.ble_eq] using h

theorem findById_setStatusFirst (id : Nat) (s : String) :
    ∀ (store : List Incident) (r : Incident), findById id store = some r →
      ∃ i : Fin store.length, store.get i = r ∧ r.id = id ∧
        setStatusFirst id s store = store.set i { r with status := s }
  | [], r, h => by simp [findById] at h
  | a :: rs, r, h => by
    by_cases ha : a.id = id
    · have hr : r = a := by simpa [findById, ha] using h.symm
      subst hr
      exact ⟨⟨0, Nat.succ_pos _⟩, rfl, ha, by simp [setStatusFirst, ha]⟩
    · have h' : findById id rs = some r := by simpa [findById, ha] using h
      obtain ⟨i, hget, hid, hset⟩ := findById_setStatusFirst id s rs r h'
      refine ⟨i.succ, by simpa using hget, hid, ?_⟩
      simp [setStatusFirst, ha, hset, Fin.succ]

/-- C7: for every state of the store and any insertion order, ListAll returns
the full set of stored incidents, with no pagination or limit, ordered by
createdAt descending (newest first); it is a pure function of the store, hence
deterministic. -/
theorem listAll_complete_sorted_desc (store : List Incident) :
    (listAll store).Perm store ∧
    (listAll store).Pairwise (fun a b => b.createdAt ≤ a.createdAt) :=
  ⟨listAll_perm store, listAll_pairwise store⟩

/-- C6: an UpdateStatus call whose id matches no stored incident answers 404
with the not-found message and leaves the store completely unchanged. -/
theorem updateStatus_unknown_id_not_found (headers : List (String × String)) (id : Nat)
    (s : String) (store : List Incident) (h : findById id store = none) :
    updateStatusHandler headers id s store =
      ({ status := 404, message := some "Incident not found", incident := none }, store) := by
  simp [updateStatusHandler, h]

/-- Witness for updateStatus_unknown_id_not_found at id 5 over a one-record
store holding id 0. -/
theorem updateStatus_unknown_id_not_found_witness :
    findById 5 [sampleIncident] = none ∧
    updateStatusHandler [] 5 "Resolved" [sampleIncident] =
      ({ status := 404, message := some "Incident not found", incident := none },
       [sampleIncident]) :=
  ⟨rfl, updateStatus_unknown_id_not_found [] 5 "Resolved" [sampleIncident] rfl⟩

/-- C5: an UpdateStatus call on an id present in the store changes only the
status field of the first record carrying that id; every other field of that
record and every other record are unchanged, and the response is 200 with the
updated document. -/
theorem updateStatus_changes_only_status (headers : List (String × String)) (id : Nat)
    (s : String) (store : List Incident) (r : Incident) (h : findById id store = some r) :
    ∃ i : Fin store.length, (store.get i).id = id ∧
      updateStatusHandler headers id s store =
        ({ status := 200, message := none, incident := some { store.get i with status := s } },
         store.set i { store.get i with status := s }) := by
  obtain ⟨i, hget, hid, hset⟩ := findById_setStatusFirst id s store r h
  subst hget
  exact ⟨i, hid, by simp [updateStatusHandler, h, hset]⟩

/-- Witness for updateStatus_changes_only_status on a one-record store. -/
theorem updateStatus_changes_only_status_witness :
    findById 0 [sampleIncident] = some sampleIncident ∧
    ∃ i : Fin [sampleIncident].length, ([sampleIncident].get i).id = 0 ∧
      updateStatusHandler [] 0 "Resolved" [sampleIncident] =
        ({ status := 200, message := none,
           incident := some { [sampleIncident].get i with status := "Resolved" } },
         [sampleIncident].set i { [sampleIncident].get i with status := "Resolved" }) :=
  ⟨rfl, updateStatus_changes_only_status [] 0 "Resolved" [sampleIncident] sampleIncident rfl⟩

/-- C1 counterexample: a GET /api/incidents request with no headers at all, in
particular no secret header, is answered 200 (not 403) and its body is the
stored record: the Incident Store is read. -/
theorem gate_missing_counterexample :
    (getIncidentsHandler [] [sampleIncident]).status = 200 ∧
    (getIncidentsHandler [] [sampleIncident]).status ≠ 403 ∧
    (getIncidentsHandler [] [sampleIncident]).incidents = [sampleIncident] := by
  refine ⟨rfl, by decide, ?_⟩
  simp [getIncidentsHandler, listAll]

/-- C1 (amended): the code implements no Access Gate. GET /api/incidents and
PATCH /api/incidents/:id/status read no header: for any headers, with or
without any secret, the list route answers 200 with the sorted store and the
update route behaves exactly as with no headers; neither ever answers 403, and
every request reaches the store. -/
theorem adminRoutes_have_no_gate (headers : List (String × String)) (store : List Incident)
    (id : Nat) (s : String) :
    getIncidentsHandler headers store = { status := 200, incidents := listAll store } ∧
    (getIncidentsHandler headers store).status ≠ 403 ∧
    updateStatusHandler headers id s store = updateStatusHandler [] id s store ∧
    (updateStatusHandler headers id s store).1.status ≠ 403 := by
  refine ⟨rfl, by simp [getIncidentsHandler], rfl, ?_⟩
  unfold updateStatusHandler
  cases findById id store <;> simp

/-- A valid request except that the title field is absent. -/
def requestMissingTitle : CreateRequest := { sampleRequest with title := none }

/-- A request whose file part carries the media type image/gif. -/
def requestGif : CreateRequest :=
  { sampleRequest with file := some { sampleFile with mimetype := "image/gif" } }

/-- A request with no file part attached. -/
def requestNoFile : CreateRequest := { sampleRequest with file := none }

/-- C2 counterexample: the store holds one record with id 0; UpdateStatus on id
0 with the out-of-enum value Bogus answers 200 and the store now holds the
record with status Bogus: the invalid value is silently stored, not rejected. -/
theorem updateStatus_stores_invalid_status_counterexample :
    ("Bogus" ∈ allowedStatuses → False) ∧
    (updateStatusHandler [] 0 "Bogus" [sampleIncident]).1.status = 200 ∧
    (updateStatusHandler [] 0 "Bogus" [sampleIncident]).2 =
      [{ sampleIncident with status := "Bogus" }] :=
  ⟨by decide, rfl, rfl⟩

/-- C2 (amended): every record persisted by Create has status Pending, one of
the four enumerated values; but UpdateStatus performs no validation of
newStatus: on an id present in the store it stores the supplied string verbatim,
inside the enumeration or not, and answers 200. -/
theorem status_after_create_and_update (req : CreateRequest) (uniqueSuffix : String)
    (newId now : Nat) (store : List Incident) (headers : List (String × String))
    (id : Nat) (s : String) (store2 : List Incident) (r : Incident)
    (hc : (createHandler req uniqueSuffix newId now store).1.status = 201)
    (hf : findById id store2 = some r) :
    (∃ doc : Incident, (createHandler req uniqueSuffix newId now store).2 = store ++ [doc] ∧
      doc.status = "Pending" ∧ doc.status ∈ allowedStatuses) ∧
    ((updateStatusHandler headers id s store2).1.status = 200 ∧
      ∃ i : Fin store2.length, (updateStatusHandler headers id s store2).2 =
        store2.set i { r with status := s }) := by
  constructor
  · cases hp : uploadPipeline req.file uniqueSuffix with
    | error msg => simp [createHandler, hp] at hc
    | ok fn =>
      cases fn with
      | none => simp [createHandler, hp] at hc
      | some filename =>
        by_cases hv : validateIncident (mkIncident req filename newId now)
        · exact ⟨mkIncident req filename newId now, by simp [createHandler, hp, hv], rfl,
            by simp [mkIncident, allowedStatuses]⟩
        · simp [createHandler, hp, hv] at hc
  · obtain ⟨i, hget, hid, hset⟩ := findById_setStatusFirst id s store2 r hf
    exact ⟨by simp [updateStatusHandler, hf], i, by simp [updateStatusHandler, hf, hset]⟩

/-- Witness for status_after_create_and_update: the sample request creates over
the empty store, and the sample one-record store is updated at id 0. -/
theorem status_after_create_and_update_witness :
    (createHandler sampleRequest "1" 7 100 []).1.status = 201 ∧
    findById 0 [sampleIncident] = some sampleIncident ∧
    ((∃ doc : Incident, (createHandler sampleRequest "1" 7 100 []).2 = [] ++ [doc] ∧
        doc.status = "Pending" ∧ doc.status ∈ allowedStatuses) ∧
      ((updateStatusHandler [] 0 "Bogus" [sampleIncident]).1.status = 200 ∧
        ∃ i : Fin [sampleIncident].length, (updateStatusHandler [] 0 "Bogus" [sampleIncident]).2 =
          [sampleIncident].set i { sampleIncident with status := "Bogus" })) :=
  ⟨by decide, rfl,
    status_after_create_and_update sampleRequest "1" 7 100 [] [] 0 "Bogus" [sampleIncident]
      sampleIncident (by decide) rfl⟩

/-- C3 counterexample: a submission with a valid JPEG but no title answers HTTP
500, not the claimed 400, and no record is persisted. -/
theorem create_missing_title_maps_to_500 :
    (createHandler requestMissingTitle "1" 0 100 []).1.status = 500 ∧
    (createHandler requestMissingTitle "1" 0 100 []).1.status ≠ 400 ∧
    (createHandler requestMissingTitle "1" 0 100 []).2 = [] :=
  ⟨rfl, by decide, rfl⟩

/-- C3 (amended): a submission carrying a valid attached file in which title is
absent or empty after trimming, or details or address is absent or empty, fails
Mongoose validation at save; the catch block of the route maps the failure to
HTTP 500 (not 400) with the server-error message, and no incident record is
persisted. -/
theorem create_missing_required_field_rejected (req : CreateRequest) (uniqueSuffix : String)
    (newId now : Nat) (store : List Incident) (f : UploadedFile)
    (hfile : req.file = some f)
    (hmime : f.mimetype = "image/jpeg" ∨ f.mimetype = "image/png")
    (hsize : f.size ≤ maxFileSize)
    (hmiss : trimChars (req.title.getD "") = "" ∨ req.details.getD "" = "" ∨
      req.address.getD "" = "") :
    (createHandler req uniqueSuffix newId now store).1.status = 500 ∧
    (createHandler req uniqueSuffix newId now store).1.message = saveErrorMessage ∧
    (createHandler req uniqueSuffix newId now store).2 = store := by
  have hp : uploadPipeline req.file uniqueSuffix =
      Except.ok (some (serverFilename f uniqueSuffix)) := by
    rcases hmime with h | h <;> simp [uploadPipeline, hfile, h, hsize]
  have hv : ¬ validateIncident (mkIncident req (serverFilename f uniqueSuffix) newId now) := by
    simp only [validateIncident, mkIncident, not_and_or]
    rcases hmiss with h | h | h
    · exact Or.inl (by simp [h])
    · exact Or.inr (Or.inl (by simp [h]))
    · exact Or.inr (Or.inr (Or.inl (by simp [h])))
  refine ⟨?_, ?_, ?_⟩ <;> simp [createHandler, hp, hv]

/-- Witness for create_missing_required_field_rejected at the request missing
its title. -/
theorem create_missing_required_field_rejected_witness :
    requestMissingTitle.file = some sampleFile ∧
    (sampleFile.mimetype = "image/jpeg" ∨ sampleFile.mimetype = "image/png") ∧
    sampleFile.size ≤ maxFileSize ∧
    (trimChars (requestMissingTitle.title.getD "") = "" ∨
      requestMissingTitle.details.getD "" = "" ∨
      requestMissingTitle.address.getD "" = "") ∧
    ((createHandler requestMissingTitle "1" 0 100 []).1.status = 500 ∧
      (createHandler requestMissingTitle "1" 0 100 []).1.message = saveErrorMessage ∧
      (createHandler requestMissingTitle "1" 0 100 []).2 = []) :=
  ⟨rfl, Or.inl rfl, by decide, Or.inl rfl,
    create_missing_required_field_rejected requestMissingTitle "1" 0 100 [] sampleFile rfl
      (Or.inl rfl) (by decide) (Or.inl rfl)⟩

/-- C4 counterexample: a submission whose file carries the media type image/gif
is rejected before persistence with the distinct filter message, but the
response status is 500, not the claimed 400; no record is persisted. -/
theorem create_unsupported_media_maps_to_500 :
    (createHandler requestGif "1" 0 100 []).1.status = 500 ∧
    (createHandler requestGif "1" 0 100 []).1.status ≠ 400 ∧
    (createHandler requestGif "1" 0 100 []).1.message = unsupportedMediaMessage ∧
    unsupportedMediaMessage ≠ missingFileMessage ∧
    (createHandler requestGif "1" 0 100 []).2 = [] :=
  ⟨rfl, by decide, rfl, by decide, rfl⟩

/-- C4 (amended): a file whose media type is neither image/jpeg nor image/png is
rejected by the fileFilter before the file is persisted and before the route
handler runs, with the distinct filter message; the Express default error
handler maps it to HTTP 500, not 400, and no incident record is persisted. -/
theorem create_unsupported_media_rejected (req : CreateRequest) (uniqueSuffix : String)
    (newId now : Nat) (store : List Incident) (f : UploadedFile)
    (hfile : req.file = some f)
    (h1 : f.mimetype ≠ "image/jpeg") (h2 : f.mimetype ≠ "image/png") :
    (createHandler req uniqueSuffix newId now store).1.status = 500 ∧
    (createHandler req uniqueSuffix newId now store).1.message = unsupportedMediaMessage ∧
    unsupportedMediaMessage ≠ missingFileMessage ∧
    (createHandler req uniqueSuffix newId now store).2 = store := by
  have hp : uploadPipeline req.file uniqueSuffix = Except.error unsupportedMediaMessage := by
    simp [uploadPipeline, hfile, h1, h2]
  exact ⟨by simp [createHandler, hp], by simp [createHandler, hp], by decide,
    by simp [createHandler, hp]⟩

/-- Witness for create_unsupported_media_rejected at the image/gif request. -/
theorem create_unsupported_media_rejected_witness :
    requestGif.file = some { sampleFile with mimetype := "image/gif" } ∧
    ({ sampleFile with mimetype := "image/gif" } : UploadedFile).mimetype ≠ "image/jpeg" ∧
    ({ sampleFile with mimetype := "image/gif" } : UploadedFile).mimetype ≠ "image/png" ∧
    ((createHandler requestGif "1" 0 100 []).1.status = 500 ∧
      (createHandler requestGif "1" 0 100 []).1.message = unsupportedMediaMessage ∧
      unsupportedMediaMessage ≠ missingFileMessage ∧
      (createHandler requestGif "1" 0 100 []).2 = []) :=
  ⟨rfl, by decide, by decide,
    create_unsupported_media_rejected requestGif "1" 0 100 []
      { sampleFile with mimetype := "image/gif" } rfl (by decide) (by decide)⟩

/-- C8: a submission with no file part attached is answered 400 with the
distinct image-required message before any store write is attempted: the store
is returned unchanged and no record is persisted. -/
theorem create_missing_file_image_required (req : CreateRequest) (uniqueSuffix : String)
    (newId now : Nat) (store : List Incident) (h : req.file = none) :
    createHandler req uniqueSuffix newId now store =
      ({ status := 400, message := missingFileMessage, incidentId := none }, store) := by
  simp [createHandler, uploadPipeline, h]

/-- Witness for create_missing_file_image_required at the request with no file
part, over a one-record store. -/
theorem create_missing_file_image_required_witness :
    requestNoFile.file = none ∧
    createHandler requestNoFile "1" 0 100 [sampleIncident] =
      ({ status := 400, message := missingFileMessage, incidentId := none },
       [sampleIncident]) :=
  ⟨rfl, create_missing_file_image_required requestNoFile "1" 0 100 [sampleIncident] rfl⟩

theorem uploads_url_ne_empty (fn : String) : "/uploads/" ++ fn ≠ "" := by
  intro hcontra
  have hlen := congrArg String.length hcontra
  rw [String.length_append] at hlen
  have h9 : ("/uploads/" : String).length = 9 := rfl
  have h0 : ("" : String).length = 0 := rfl
  omega

/-- C9: a submission with a supported image type of size at most maxFileSize and
all required text fields present (title non-empty after trimming, details and
address non-empty) succeeds with HTTP 201 returning the new incident id; the
persisted record is appended to the store with status Pending, adminNotes empty,
the assigned id and createdAt; and a subsequent ListAll includes it. -/
theorem create_valid_submission_succeeds (req : CreateRequest) (uniqueSuffix : String)
    (newId now : Nat) (store : List Incident) (f : UploadedFile) (t d a : String)
    (hfile : req.file = some f)
    (hmime : f.mimetype = "image/jpeg" ∨ f.mimetype = "image/png")
    (hsize : f.size ≤ maxFileSize)
    (ht : req.title = some t) (htne : trimChars t ≠ "")
    (hd : req.details = some d) (hdne : d ≠ "")
    (ha : req.address = some a) (hane : a ≠ "") :
    ∃ doc : Incident,
      createHandler req uniqueSuffix newId now store =
        ({ status := 201, message := successMessage, incidentId := some newId },
         store ++ [doc]) ∧
      doc.status = "Pending" ∧ doc.adminNotes = "" ∧ doc.id = newId ∧ doc.createdAt = now ∧
      doc ∈ listAll (store ++ [doc]) := by
  have hp : uploadPipeline req.file uniqueSuffix =
      Except.ok (some (serverFilename f uniqueSuffix)) := by
    rcases hmime with h | h <;> simp [uploadPipeline, hfile, h, hsize]
  have hv : validateIncident (mkIncident req (serverFilename f uniqueSuffix) newId now) := by
    refine ⟨?_, ?_, ?_, uploads_url_ne_empty _, by simp [mkIncident, allowedStatuses]⟩
    · simpa [mkIncident, ht] using htne
    · simpa [mkIncident, hd] using hdne
    · simpa [mkIncident, ha] using hane
  refine ⟨mkIncident req (serverFilename f uniqueSuffix) newId now,
    by simp [createHandler, hp, hv], rfl, rfl, rfl, rfl, ?_⟩
  exact (listAll_perm _).mem_iff.mpr (by simp)

/-- Witness for create_valid_submission_succeeds at the sample request over the
empty store. -/
theorem create_valid_submission_succeeds_witness :
    sampleRequest.file = some sampleFile ∧
    (sampleFile.mimetype = "image/jpeg" ∨ sampleFile.mimetype = "image/png") ∧
    sampleFile.size ≤ maxFileSize ∧
    sampleRequest.title = some "Pothole" ∧ trimChars "Pothole" ≠ "" ∧
    sampleRequest.details = some "Large pothole" ∧ ("Large pothole" : String) ≠ "" ∧
    sampleRequest.address = some "Main St" ∧ ("Main St" : String) ≠ "" ∧
    ∃ doc : Incident,
      createHandler sampleRequest "1" 7 100 [] =
        ({ status := 201, message := successMessage, incidentId := some 7 }, [] ++ [doc]) ∧
      doc.status = "Pending" ∧ doc.adminNotes = "" ∧ doc.id = 7 ∧ doc.createdAt = 100 ∧
      doc ∈ listAll ([] ++ [doc]) :=
  ⟨rfl, Or.inl rfl, by decide, rfl, by decide, rfl, by decide, rfl, by decide,
    create_valid_submission_succeeds sampleRequest "1" 7 100 [] sampleFile
      "Pothole" "Large pothole" "Main St" rfl (Or.inl rfl) (by decide) rfl (by decide)
      rfl (by decide) rfl (by decide)⟩

theorem uploadPipeline_ok_some (file : Option UploadedFile) (u fn : String)
    (h : uploadPipeline file u = Except.ok (some fn)) :
    ∃ f, file = some f ∧ fn = serverFilename f u := by
  cases file with
  | none => simp [uploadPipeline] at h
  | some f =>
    refine ⟨f, rfl, ?_⟩
    by_cases h1 : f.mimetype = "image/jpeg" ∨ f.mimetype = "image/png"
    · by_cases h2 : f.size ≤ maxFileSize
      · rw [uploadPipeline, if_pos h1, if_pos h2] at h
        exact (Option.some.inj (Except.ok.inj h)).symm
      · rw [uploadPipeline, if_pos h1, if_neg h2] at h
        exact absurd h (by simp)
    · rw [uploadPipeline, if_neg h1] at h
      exact absurd h (by simp)

/-- Replacement of the client-controlled body values of a request: the fields a
client may send but the create route never reads. -/
def withClientFields (req : CreateRequest) (bs an : Option String) (bc : Option Nat)
    (biu : Option String) : CreateRequest :=
  { req with bodyStatus := bs, bodyAdminNotes := an, bodyCreatedAt := bc, bodyImageUrl := biu }

/-- The sample request decorated with client-supplied status, adminNotes,
createdAt and imageUrl values. -/
def requestWithClientFields : CreateRequest :=
  withClientFields sampleRequest (some "Resolved") (some "note") (some 5)
    (some "/elsewhere/x.png")

/-- C10: whenever the creation handler succeeds, it has read only title,
details, address and landmark from the request body: the persisted record has
status Pending, adminNotes empty, the server-assigned createdAt, and an imageUrl
that is exactly the prefix /uploads/ followed by the server-generated filename;
and replacing the client-supplied status, adminNotes, createdAt or imageUrl body
values by anything changes nothing about the outcome. -/
theorem create_ignores_client_controlled_fields (req : CreateRequest) (uniqueSuffix : String)
    (newId now : Nat) (store : List Incident)
    (h : (createHandler req uniqueSuffix newId now store).1.status = 201) :
    ∃ f : UploadedFile, req.file = some f ∧
      (createHandler req uniqueSuffix newId now store).2 =
        store ++ [{ id := newId, title := trimChars (req.title.getD ""),
                    details := req.details.getD "", address := req.address.getD "",
                    landmark := req.landmark,
                    imageUrl := "/uploads/" ++ serverFilename f uniqueSuffix,
                    status := "Pending", adminNotes := "", createdAt := now }] ∧
      (∀ bs an : Option String, ∀ bc : Option Nat, ∀ biu : Option String,
        createHandler (withClientFields req bs an bc biu) uniqueSuffix newId now store =
          createHandler req uniqueSuffix newId now store) := by
  cases hp : uploadPipeline req.file uniqueSuffix with
  | error msg => simp [createHandler, hp] at h
  | ok fn =>
    cases fn with
    | none => simp [createHandler, hp] at h
    | some filename =>
      obtain ⟨f, hfile, hname⟩ := uploadPipeline_ok_some req.file uniqueSuffix filename hp
      by_cases hv : validateIncident (mkIncident req filename newId now)
      · refine ⟨f, hfile, ?_, ?_⟩
        · rw [← hname]
          simp only [mkIncident] at hv
          simp [createHandler, hp, hv, mkIncident]
        · intro bs an bc biu
          cases req
          rfl
      · simp [createHandler, hp, hv] at h

/-- Witness for create_ignores_client_controlled_fields at a request carrying
client-supplied values for every server-controlled field. -/
theorem create_ignores_client_controlled_fields_witness :
    (createHandler requestWithClientFields "1" 7 100 []).1.status = 201 ∧
    ∃ f : UploadedFile, requestWithClientFields.file = some f ∧
      (createHandler requestWithClientFields "1" 7 100 []).2 =
        [] ++ [{ id := 7, title := trimChars (requestWithClientFields.title.getD ""),
                 details := requestWithClientFields.details.getD "",
                 address := requestWithClientFields.address.getD "",
                 landmark := requestWithClientFields.landmark,
                 imageUrl := "/uploads/" ++ serverFilename f "1",
                 status := "Pending", adminNotes := "", createdAt := 100 }] ∧
      (∀ bs an : Option String, ∀ bc : Option Nat, ∀ biu : Option String,
        createHandler (withClientFields requestWithClientFields bs an bc biu) "1" 7 100 [] =
          createHandler requestWithClientFields "1" 7 100 []) :=
  ⟨by decide,
    create_ignores_client_controlled_fields requestWithClientFields "1" 7 100 [] (by decide)⟩
